import Mathlib

/-!
Shallow embedding of the schema-composition core of the `dani97/graphql`
server (source files `src/index.ts` and
`src/framework/schema/monolith-proxy/index.ts`).

The embedding models:
* the environment lookup (`readVar`) and JavaScript string truthiness used
  by `main` to decide which schema fragments are assembled;
* executable schemas as association lists from `(typeName, fieldName)` to a
  field shape (declared type, resolver tag, optional `@function` directive
  argument);
* `mergeSchemas` with its documented last-in-wins semantics (library code:
  modelled from the spec's SchemaComposer contract and the source comment
  "schemas are last-in-wins");
* the remote-extension collector (`collectRemoteExtensions`), including the
  base document with the `ignoreMe` placeholder and the `@function`
  directive grammar, and the per-package directive rewriting;
* the monolith proxy builder (`createMonolithProxySchema`) with its
  introspection failure handling and compatibility assertions;
* `prepareForServer`, which builds the framework schema twice.
-/

set_option autoImplicit false

namespace GraphQLServer

/-- Shape of a single field in an executable schema: its declared type, a
tag identifying the resolver implementation that serves it, and the `name`
argument of an attached `@function` directive, when present. -/
structure FieldShape where
  fieldType : String
  resolverTag : String
  functionDirective : Option String
deriving DecidableEq, Repr

/-- An executable GraphQL schema, abstracted as the ordered list of its
field declarations keyed by `(typeName, fieldName)`. Later bindings shadow
earlier ones (last-in-wins lookup). -/
structure GQLSchema where
  fields : List ((String × String) × FieldShape)
deriving DecidableEq, Repr

/-- Looking up a field in a schema: the last binding for the key wins. -/
def lookupField (s : GQLSchema) (k : String × String) : Option FieldShape :=
  ((s.fields.filter (fun e => decide (e.1 = k))).getLast?).map (fun e => e.2)

/-- Modelled from the spec: `mergeSchemas` (graphql-tools library call at
`src/index.ts:42`) merges an ordered list of schemas with strict
last-fragment-wins precedence for overlapping `(typeName, fieldName)`
definitions, per the spec's SchemaComposer contract and the source comment
"schemas are last-in-wins". Concatenating the field lists realizes exactly
that: `lookupField` takes the last binding. -/
def mergeSchemas (schemas : List GQLSchema) : GQLSchema :=
  ⟨(schemas.map GQLSchema.fields).flatten⟩

/-- Process environment, as consulted by `readVar` (`src/env.ts`, external
config collaborator): a list of variable bindings. -/
structure Env where
  vars : List (String × String)
deriving DecidableEq, Repr

/-- `readVar(name)`: the value of the environment variable, or the empty
string when unset (an unset variable is falsy in the JavaScript guards). -/
def readVar (env : Env) (name : String) : String :=
  ((env.vars.find? (fun p => decide (p.1 = name))).map (fun p => p.2)).getD ""

/-- JavaScript truthiness of the string returned by `readVar`: any
non-empty string is truthy. -/
def truthy (s : String) : Bool :=
  !(s == "")

/-- The three precedence tiers of the spec's data model: local in-process
packages, remote I/O function packages, and the monolith proxy. -/
inductive Tier where
  | LOCAL
  | REMOTE_FUNCTION
  | MONOLITH
deriving DecidableEq, Repr

/-- Numeric precedence of a tier: monolith > remote-function > local. -/
def tierRank : Tier → Nat
  | Tier.LOCAL => 0
  | Tier.REMOTE_FUNCTION => 1
  | Tier.MONOLITH => 2

/-- A schema fragment tagged with its precedence tier. -/
structure Fragment where
  tier : Tier
  schema : GQLSchema
deriving DecidableEq, Repr

/-- The fragment list assembled by `main` (`src/index.ts:20-39`): the local
schema always comes first; the remote-function schema is pushed when
`ENABLE_IO_FUNCTIONS` is truthy; the monolith fallback schema is pushed
last when `LEGACY_GRAPHQL_URL` is truthy. Each fragment is tagged with the
tier the spec assigns to it. -/
def mainFragments (env : Env) (l r m : GQLSchema) : List Fragment :=
  [⟨Tier.LOCAL, l⟩]
    ++ (if truthy (readVar env "ENABLE_IO_FUNCTIONS")
        then [⟨Tier.REMOTE_FUNCTION, r⟩] else [])
    ++ (if truthy (readVar env "LEGACY_GRAPHQL_URL")
        then [⟨Tier.MONOLITH, m⟩] else [])

/-- The bare schema array `main` hands to `mergeSchemas`. -/
def mainSchemas (env : Env) (l r m : GQLSchema) : List GQLSchema :=
  (mainFragments env l r m).map Fragment.schema

/-- The composed schema `main` passes to the ApolloServer constructor:
`mergeSchemas({ schemas })` (`src/index.ts:42`). -/
def composedSchema (env : Env) (l r m : GQLSchema) : GQLSchema :=
  mergeSchemas (mainSchemas env l r m)

/-- A field declaration inside a type declaration of a raw schema document,
with the `name` argument of an attached `@function` directive when one is
present. -/
structure FieldDecl where
  name : String
  fieldType : String
  functionDirective : Option String
deriving DecidableEq, Repr

/-- A single definition in a raw GraphQL schema document: an object type
declaration with its fields, or a directive grammar declaration such as
`directive @function(name: String!) on FIELD_DEFINITION`. -/
inductive TypeDef where
  | objectType (name : String) (fields : List FieldDecl)
  | directiveDef (name : String) (args : String) (location : String)
deriving DecidableEq, Repr

/-- One remote package descriptor returned by `getAllRemoteGQLSchemas`
(`src/adobe-io.ts`, external catalog collaborator): the package name and
its raw schema document. -/
structure IoSchemaDef where
  pkg : String
  schemaDef : List TypeDef
deriving DecidableEq, Repr

/-- Separator used when namespace-qualifying a function name (the spec
writes `"catalog::getPrice"`, noting the separator is illustrative). -/
def functionNameSep : String := "::"

/-- Rewriting of one document definition: every `@function(name: n)`
argument becomes `pkg ++ functionNameSep ++ n`; everything else is kept. -/
def prependToTypeDef (pkg : String) : TypeDef → TypeDef
  | TypeDef.objectType n fs =>
      TypeDef.objectType n (fs.map (fun f =>
        { f with functionDirective :=
            f.functionDirective.map (fun nm => pkg ++ functionNameSep ++ nm) }))
  | TypeDef.directiveDef n a loc => TypeDef.directiveDef n a loc

/-- Modelled from the spec: `prependPkgNameToFunctionDirectives` lives in
`src/FunctionDirectiveVisitor.ts`, which is not in the source tree. Per the
spec's RemoteFunctionDirectiveRewriter contract it scans the document for
every `@function` directive occurrence and prefixes the `name` argument
with the owning package's namespace plus a separator. -/
def prependPkgNameToFunctionDirectives (schemaDef : List TypeDef)
    (pkg : String) : List TypeDef :=
  schemaDef.map (prependToTypeDef pkg)

/-- The `forEach` rewrite loop of `collectRemoteExtensions`
(`src/index.ts:83-85`): each descriptor's document is rewritten with that
descriptor's own package name. -/
def rewriteAllDefs (defs : List IoSchemaDef) : List IoSchemaDef :=
  defs.map (fun d =>
    { d with schemaDef := prependPkgNameToFunctionDirectives d.schemaDef d.pkg })

/-- The root-query placeholder declared by the collector's base document:
`type Query { ignoreMe: String }` (`src/index.ts:89-93`). -/
def queryPlaceholderDecl : TypeDef :=
  TypeDef.objectType "Query"
    [{ name := "ignoreMe", fieldType := "String", functionDirective := none }]

/-- The directive grammar declared by the collector's base document:
`directive @function(name: String!) on FIELD_DEFINITION`
(`src/index.ts:94`). -/
def functionDirectiveDecl : TypeDef :=
  TypeDef.directiveDef "function" "name: String!" "FIELD_DEFINITION"

/-- The base document of `collectRemoteExtensions`: the placeholder root
query type followed by the `@function` directive grammar. -/
def baseDoc : List TypeDef :=
  [queryPlaceholderDecl, functionDirectiveDecl]

/-- The `typeDefs` array passed to `makeExecutableSchema` by
`collectRemoteExtensions` (`src/index.ts:86-100`): the base document first,
then every (already rewritten) package document in discovery order. -/
def collectRemoteTypeDefs (defs : List IoSchemaDef) : List (List TypeDef) :=
  baseDoc :: (rewriteAllDefs defs).map IoSchemaDef.schemaDef

/-- Resolver tag of a field that was built from type definitions alone
(no explicit resolver attached yet). -/
def defaultResolverTag : String := "default"

/-- Field bindings contributed by one document definition. -/
def declFields : TypeDef → List ((String × String) × FieldShape)
  | TypeDef.objectType n fs =>
      fs.map (fun f => ((n, f.name),
        { fieldType := f.fieldType, resolverTag := defaultResolverTag,
          functionDirective := f.functionDirective }))
  | TypeDef.directiveDef _ _ _ => []

/-- Modelled from the spec: `makeExecutableSchema` (library call) turns an
ordered list of documents into one executable schema; its field bindings
are the documents' declarations in document order, so later documents
shadow earlier ones on the same `(typeName, fieldName)`. -/
def makeExecutableSchema (docs : List (List TypeDef)) : GQLSchema :=
  ⟨(docs.flatten.map declFields).flatten⟩

/-- The executable schema produced by `collectRemoteExtensions`
(`src/index.ts:86-100`). -/
def collectRemoteExtensionsSchema (defs : List IoSchemaDef) : GQLSchema :=
  makeExecutableSchema (collectRemoteTypeDefs defs)

/-- `mainSchemas` with the remote fragment expanded to the collector's
actual output for the discovered packages `defs`. -/
def mainSchemasIo (env : Env) (l : GQLSchema) (defs : List IoSchemaDef)
    (m : GQLSchema) : List GQLSchema :=
  mainSchemas env l (collectRemoteExtensionsSchema defs) m

/-- The composed schema of a run whose remote fragment is built from the
discovered packages `defs`. -/
def composedSchemaIo (env : Env) (l : GQLSchema) (defs : List IoSchemaDef)
    (m : GQLSchema) : GQLSchema :=
  mergeSchemas (mainSchemasIo env l defs m)

/-- Does a document definition declare field `f` on type `t`? -/
def declaresField (td : TypeDef) (t f : String) : Bool :=
  match td with
  | TypeDef.objectType n fs => decide (n = t) && fs.any (fun fd => decide (fd.name = f))
  | TypeDef.directiveDef _ _ _ => false

/-- Schema-level directive-binding and composition events observable in a
run of `main`: `bindDirectives s` is an application of
`FunctionDirectiveVisitor.visitSchemaDirectives` (directly at
`src/index.ts:103-105`, or by the ApolloServer constructor through the
`schemaDirectives` option at `src/index.ts:44-46`) to the schema `s`;
`compose ss` is the `mergeSchemas({ schemas: ss })` call. -/
inductive Event where
  | bindDirectives (target : GQLSchema)
  | compose (inputs : List GQLSchema)
deriving DecidableEq, Repr

/-- Is the event a directive-binding application? -/
def isBindEvent : Event → Bool
  | Event.bindDirectives _ => true
  | Event.compose _ => false

/-- Is the event the composition step? -/
def isComposeEvent : Event → Bool
  | Event.bindDirectives _ => false
  | Event.compose _ => true

/-- Events produced inside `collectRemoteExtensions`: it applies the
function-directive visitor to its own fragment schema before returning it
(`src/index.ts:101-105`). -/
def collectRemoteExtensionsEvents (defs : List IoSchemaDef) : List Event :=
  [Event.bindDirectives (collectRemoteExtensionsSchema defs)]

/-- The ordered trace of binding/composition events in one run of `main`:
when `ENABLE_IO_FUNCTIONS` is truthy, the collector's fragment-level
binding happens first; then `mergeSchemas` composes the fragment array;
then the ApolloServer constructor applies the `function` directive visitor
to the merged schema via its `schemaDirectives` option. -/
def mainTrace (env : Env) (l : GQLSchema) (defs : List IoSchemaDef)
    (m : GQLSchema) : List Event :=
  (if truthy (readVar env "ENABLE_IO_FUNCTIONS")
    then collectRemoteExtensionsEvents defs else [])
    ++ [Event.compose (mainSchemasIo env l defs m),
        Event.bindDirectives (mergeSchemas (mainSchemasIo env l defs m))]

/-- A type as seen in the introspected monolith schema: its name, whether
it is an input object type, and its field names. -/
structure IntrospectedType where
  name : String
  isInputObject : Bool
  fields : List String
deriving DecidableEq, Repr

/-- The introspected monolith schema: its named types. -/
structure IntrospectedSchema where
  types : List IntrospectedType
deriving DecidableEq, Repr

/-- `schema.getType(name)` on the introspected schema. -/
def getType (s : IntrospectedSchema) (n : String) : Option IntrospectedType :=
  s.types.find? (fun t => decide (t.name = n))

/-- The message of the error thrown when introspection of the monolith
fails (`monolith-proxy/index.ts:49-53`). -/
def introspectionFailureMessage (monolithURL : String) : String :=
  "Failed introspecting remote Magento schema at \"" ++ monolithURL ++
    "\". Make sure that the MONOLITH_GRAPHQL_URL configuration is set to the correct value for your Magento instance"

/-- The assertion message raised when `ProductAttributeFilterInput` is
missing or not an input object type (`monolith-proxy/index.ts:57-60`). -/
def missingTypeMessage : String :=
  "Could not find required type \"ProductAttributeFilterInput\" in PHP application schema. Make sure your Magento store is running version 2.3.4 or later."

/-- The assertion message raised when `ProductAttributeFilterInput.sku` is
missing (`monolith-proxy/index.ts:65-68`). -/
def missingSkuMessage : String :=
  "Could not find required field \"ProductAttributeFilterInput.sku\" in PHP application schema. Make sure your store has the \"sku\" attribute exposed for filtering: https://devdocs.magento.com/guides/v2.4/graphql/custom-filters.html"

/-- Did the introspected schema pass the first assertion
(`isInputObjectType(schema.getType('ProductAttributeFilterInput'))`)? -/
def attrFilterOk (s : IntrospectedSchema) : Bool :=
  match getType s "ProductAttributeFilterInput" with
  | some t => t.isInputObject
  | none => false

/-- Did the introspected schema pass the second assertion (the filter input
type has a field named `sku`)? -/
def skuOk (s : IntrospectedSchema) : Bool :=
  match getType s "ProductAttributeFilterInput" with
  | some t => t.fields.any (fun f => decide (f = "sku"))
  | none => false

/-- `createMonolithProxySchema` (`monolith-proxy/index.ts:37-71`): the
executor is bound to the configured URL; a failed introspection (modelled
as the `Except.error` case, carrying the underlying cause) is turned into a
thrown error built from the URL alone; a successful introspection is
validated by the two compatibility assertions before the pair
`{ schema, executor }` is returned. Thrown errors are modelled as
`Except.error` carrying the error message. -/
def createMonolithProxySchema (monolithURL : String)
    (introspection : Except String IntrospectedSchema) :
    Except String (IntrospectedSchema × String) :=
  match introspection with
  | Except.error _ => Except.error (introspectionFailureMessage monolithURL)
  | Except.ok schema =>
      match getType schema "ProductAttributeFilterInput" with
      | none => Except.error missingTypeMessage
      | some attrFilterInput =>
          if attrFilterInput.isInputObject then
            if attrFilterInput.fields.any (fun f => decide (f = "sku")) then
              Except.ok (schema, monolithURL)
            else
              Except.error missingSkuMessage
          else
            Except.error missingTypeMessage

/-- Does the pattern occur at the head of the text? -/
def takesLead : List Char → List Char → Bool
  | [], _ => true
  | _ :: _, [] => false
  | p :: ps, h :: t => (p == h) && takesLead ps t

/-- Does the pattern occur anywhere in the text? -/
def hasSub (p : List Char) : List Char → Bool
  | [] => takesLead p []
  | h :: t => takesLead p (h :: t) || hasSub p t

/-- Does the string `hay` mention `pat` as a substring? -/
def strMentions (hay pat : String) : Bool :=
  hasSub pat.data hay.data

/-- One invocation of `buildFrameworkSchema` (`src/framework/schema`, body
external to the proxy module) modelled as drawing from a supply of results
indexed by the number of prior invocations: calling with `n` prior calls
yields the `n`-th result and bumps the call counter. -/
def buildSupply (f : Nat → GQLSchema) (callCount : Nat) : GQLSchema × Nat :=
  (f callCount, callCount + 1)

/-- What `prepareForServer` hands to the serving layer: the schema exposed
to the HTTP library, and the schema captured inside the context builder. -/
structure ServerPrep where
  schema : GQLSchema
  contextSchema : GQLSchema
deriving DecidableEq, Repr

/-- `prepareForServer` (`monolith-proxy` source, lines 79-86): it awaits
`buildFrameworkSchema()` once into `gateway`, then calls
`buildFrameworkSchema()` a second time for the returned `schema` field,
while the context builder captures the first result. The returned counter
is the total number of build invocations. -/
def prepareForServer (f : Nat → GQLSchema) : ServerPrep × Nat :=
  let g := buildSupply f 0
  let s := buildSupply f g.2
  ({ schema := s.1, contextSchema := g.1 }, s.2)

/-- A small local schema used to evaluate the theorems on concrete runs. -/
def sampleLocalSchema : GQLSchema :=
  ⟨[(("Query", "hello"),
      { fieldType := "String", resolverTag := "localResolver", functionDirective := none }),
    (("Query", "shared"),
      { fieldType := "String", resolverTag := "localResolver", functionDirective := none })]⟩

/-- A small remote-function schema used to evaluate the theorems. -/
def sampleRemoteSchema : GQLSchema :=
  ⟨[(("Query", "greet"),
      { fieldType := "String", resolverTag := "remoteResolver",
        functionDirective := some "pkgB::greet" }),
    (("Query", "shared"),
      { fieldType := "Int", resolverTag := "remoteResolver", functionDirective := none })]⟩

/-- A small monolith schema used to evaluate the theorems. -/
def sampleMonolithSchema : GQLSchema :=
  ⟨[(("Query", "shared"),
      { fieldType := "ID", resolverTag := "monolithResolver", functionDirective := none })]⟩

/-- An environment with neither optional fragment enabled. -/
def envNone : Env := ⟨[]⟩

/-- An environment enabling only the remote-function fragment. -/
def envIoOnly : Env := ⟨[("ENABLE_IO_FUNCTIONS", "1")]⟩

/-- An environment enabling both optional fragments. -/
def envAll : Env :=
  ⟨[("ENABLE_IO_FUNCTIONS", "1"),
    ("LEGACY_GRAPHQL_URL", "http://magento.example/graphql")]⟩

/-- A remote package descriptor carrying the spec's running example: the
`catalog` package annotating a field with `@function(name: "getPrice")`. -/
def sampleCatalogDef : IoSchemaDef :=
  ⟨"catalog",
    [TypeDef.objectType "Query"
      [{ name := "price", fieldType := "String",
         functionDirective := some "getPrice" }]]⟩

/-- A second remote package descriptor, used to vary the surrounding
package list. -/
def sampleInventoryDef : IoSchemaDef :=
  ⟨"inventory",
    [TypeDef.objectType "Query"
      [{ name := "stock", fieldType := "Int",
         functionDirective := some "getStock" }]]⟩

/-- A concrete monolith endpoint URL for evaluating the proxy builder. -/
def sampleMonolithURL : String := "http://magento.example/graphql"

/-- An introspected monolith schema whose `ProductAttributeFilterInput`
exists and is an input object type but lacks the `sku` field. -/
def schemaMissingSku : IntrospectedSchema :=
  ⟨[{ name := "ProductAttributeFilterInput", isInputObject := true,
      fields := ["price", "name"] }]⟩

/-- An introspected monolith schema passing both compatibility checks. -/
def schemaCompat : IntrospectedSchema :=
  ⟨[{ name := "ProductAttributeFilterInput", isInputObject := true,
      fields := ["sku", "price"] }]⟩

/-- A build-result supply under which the two `buildFrameworkSchema` calls
of `prepareForServer` return different schemas (a non-deterministic
build). -/
def sampleBuildResults : Nat → GQLSchema := fun n =>
  ⟨List.replicate n
    (("Query", "built"),
      { fieldType := "String", resolverTag := defaultResolverTag,
        functionDirective := none })⟩

end GraphQLServer

namespace GraphQLServer

theorem lookupField_merge_append (ss : List GQLSchema) (s : GQLSchema)
    (k : String × String) :
    lookupField (mergeSchemas (ss ++ [s])) k =
      match lookupField s k with
      | some v => some v
      | none => lookupField (mergeSchemas ss) k := by
  unfold lookupField mergeSchemas
  simp only [List.map_append, List.map_cons, List.map_nil, List.flatten_append,
    List.flatten_cons, List.flatten_nil, List.append_nil, List.filter_append]
  cases h : (s.fields.filter (fun e => decide (e.1 = k))) with
  | nil => simp only [List.append_nil, List.getLast?_nil, Option.map_none']
  | cons a t =>
      rw [List.getLast?_append_cons]
      cases hg : (a :: t).getLast? with
      | none => simp at hg
      | some v => simp [hg]

theorem lookupField_merge_singleton (s : GQLSchema) (k : String × String) :
    lookupField (mergeSchemas [s]) k = lookupField s k := by
  unfold lookupField mergeSchemas
  simp

theorem lookupField_merge_two (a b : GQLSchema) (k : String × String) :
    lookupField (mergeSchemas [a, b]) k =
      match lookupField b k with
      | some v => some v
      | none => lookupField a k := by
  have h2 := lookupField_merge_append [a] b k
  simp only [List.cons_append, List.nil_append] at h2
  rw [h2, lookupField_merge_singleton]

theorem lookupField_merge_three (a b c : GQLSchema) (k : String × String) :
    lookupField (mergeSchemas [a, b, c]) k =
      match lookupField c k with
      | some v => some v
      | none =>
          match lookupField b k with
          | some v => some v
          | none => lookupField a k := by
  have h3 := lookupField_merge_append [a, b] c k
  simp only [List.cons_append, List.nil_append] at h3
  rw [h3, lookupField_merge_two]

/-- C7: in every run of `main`, the fragment sequence handed to the
composer is non-empty, starts with the local fragment, is strictly
increasing in precedence tier, contains the remote-function fragment
exactly when `ENABLE_IO_FUNCTIONS` is truthy and the monolith fragment
exactly when `LEGACY_GRAPHQL_URL` is truthy, and contains nothing else. -/
theorem mainFragments_fixed_order (env : Env) (l r m : GQLSchema) :
    mainFragments env l r m ≠ [] ∧
    (mainFragments env l r m).head? = some ⟨Tier.LOCAL, l⟩ ∧
    List.Chain' (fun a b => tierRank a.tier < tierRank b.tier)
      (mainFragments env l r m) ∧
    ((⟨Tier.REMOTE_FUNCTION, r⟩ : Fragment) ∈ mainFragments env l r m ↔
      truthy (readVar env "ENABLE_IO_FUNCTIONS") = true) ∧
    ((⟨Tier.MONOLITH, m⟩ : Fragment) ∈ mainFragments env l r m ↔
      truthy (readVar env "LEGACY_GRAPHQL_URL") = true) ∧
    ∀ f ∈ mainFragments env l r m,
      f = ⟨Tier.LOCAL, l⟩ ∨ f = ⟨Tier.REMOTE_FUNCTION, r⟩ ∨
        f = ⟨Tier.MONOLITH, m⟩ := by
  cases hio : truthy (readVar env "ENABLE_IO_FUNCTIONS") <;>
    cases hmo : truthy (readVar env "LEGACY_GRAPHQL_URL") <;>
      simp [mainFragments, hio, hmo, tierRank]

/-- C7 witness: evaluating the invariant on a concrete run with both
optional fragments enabled. -/
theorem mainFragments_fixed_order_witness :
    (⟨Tier.MONOLITH, sampleMonolithSchema⟩ : Fragment) ∈
      mainFragments envAll sampleLocalSchema sampleRemoteSchema
        sampleMonolithSchema :=
  ((mainFragments_fixed_order envAll sampleLocalSchema sampleRemoteSchema
    sampleMonolithSchema).2.2.2.2.1).mpr (by decide)

/-- C8: when neither `ENABLE_IO_FUNCTIONS` nor `LEGACY_GRAPHQL_URL` is
truthy, the composed schema is identical to the local fragment's own
schema: composition is the identity on a singleton input. -/
theorem composed_identity_on_singleton (env : Env) (l r m : GQLSchema)
    (hio : truthy (readVar env "ENABLE_IO_FUNCTIONS") = false)
    (hmo : truthy (readVar env "LEGACY_GRAPHQL_URL") = false) :
    composedSchema env l r m = l := by
  simp [composedSchema, mainSchemas, mainFragments, hio, hmo, mergeSchemas]

/-- C8 witness: with the empty environment, composing leaves the sample
local schema unchanged. -/
theorem composed_identity_on_singleton_witness :
    composedSchema envNone sampleLocalSchema sampleRemoteSchema
      sampleMonolithSchema = sampleLocalSchema :=
  composed_identity_on_singleton envNone sampleLocalSchema
    sampleRemoteSchema sampleMonolithSchema (by decide) (by decide)

/-- C1: for any field key, if a fragment `d` of the run defines the key and
has maximal precedence tier among the defining fragments, then the
composed schema's entry for that key is exactly `d`'s entry — resolver and
field shape from the highest-precedence fragment survive whole, and
lower-precedence definitions are discarded, never merged field-by-field. -/
theorem composed_keeps_highest_precedence (env : Env) (l r m : GQLSchema)
    (k : String × String) (d : Fragment)
    (hd : d ∈ mainFragments env l r m)
    (hdef : (lookupField d.schema k).isSome = true)
    (hmax : ∀ f ∈ mainFragments env l r m,
      (lookupField f.schema k).isSome = true →
        tierRank f.tier ≤ tierRank d.tier) :
    lookupField (composedSchema env l r m) k = lookupField d.schema k := by
  cases hio : truthy (readVar env "ENABLE_IO_FUNCTIONS") <;>
    cases hmo : truthy (readVar env "LEGACY_GRAPHQL_URL")
  · -- no optional fragments: only the local fragment is present
    have hfr : mainFragments env l r m = [⟨Tier.LOCAL, l⟩] := by
      simp [mainFragments, hio, hmo]
    have hc : composedSchema env l r m = mergeSchemas [l] := by
      simp [composedSchema, mainSchemas, hfr]
    rw [hfr] at hd
    simp only [List.mem_singleton] at hd
    subst hd
    rw [hc, lookupField_merge_singleton]
  · -- monolith only
    have hfr : mainFragments env l r m =
        [⟨Tier.LOCAL, l⟩, ⟨Tier.MONOLITH, m⟩] := by
      simp [mainFragments, hio, hmo]
    have hc : composedSchema env l r m = mergeSchemas [l, m] := by
      simp [composedSchema, mainSchemas, hfr]
    rw [hfr] at hd
    simp only [List.mem_cons, List.mem_singleton, List.not_mem_nil,
      or_false] at hd
    rw [hc, lookupField_merge_two]
    rcases hd with hd | hd
    · have hm' : lookupField m k = none := by
        cases hm' : lookupField m k with
        | none => rfl
        | some v =>
            have hle := hmax ⟨Tier.MONOLITH, m⟩ (by rw [hfr]; simp)
              (by simp [hm'])
            rw [hd] at hle
            simp [tierRank] at hle
      subst hd
      simp [hm']
    · subst hd
      cases hm' : lookupField m k with
      | none => simp [hm'] at hdef
      | some v => simp [hm']
  · -- remote-function only
    have hfr : mainFragments env l r m =
        [⟨Tier.LOCAL, l⟩, ⟨Tier.REMOTE_FUNCTION, r⟩] := by
      simp [mainFragments, hio, hmo]
    have hc : composedSchema env l r m = mergeSchemas [l, r] := by
      simp [composedSchema, mainSchemas, hfr]
    rw [hfr] at hd
    simp only [List.mem_cons, List.mem_singleton, List.not_mem_nil,
      or_false] at hd
    rw [hc, lookupField_merge_two]
    rcases hd with hd | hd
    · have hr : lookupField r k = none := by
        cases hr : lookupField r k with
        | none => rfl
        | some v =>
            have hle := hmax ⟨Tier.REMOTE_FUNCTION, r⟩ (by rw [hfr]; simp)
              (by simp [hr])
            rw [hd] at hle
            simp [tierRank] at hle
      subst hd
      simp [hr]
    · subst hd
      cases hr : lookupField r k with
      | none => simp [hr] at hdef
      | some v => simp [hr]
  · -- remote-function and monolith both present
    have hfr : mainFragments env l r m =
        [⟨Tier.LOCAL, l⟩, ⟨Tier.REMOTE_FUNCTION, r⟩, ⟨Tier.MONOLITH, m⟩] := by
      simp [mainFragments, hio, hmo]
    have hc : composedSchema env l r m = mergeSchemas [l, r, m] := by
      simp [composedSchema, mainSchemas, hfr]
    rw [hfr] at hd
    simp only [List.mem_cons, List.mem_singleton, List.not_mem_nil,
      or_false] at hd
    rw [hc, lookupField_merge_three]
    rcases hd with hd | hd | hd
    · have hm' : lookupField m k = none := by
        cases hm' : lookupField m k with
        | none => rfl
        | some v =>
            have hle := hmax ⟨Tier.MONOLITH, m⟩ (by rw [hfr]; simp)
              (by simp [hm'])
            rw [hd] at hle
            simp [tierRank] at hle
      have hr : lookupField r k = none := by
        cases hr : lookupField r k with
        | none => rfl
        | some v =>
            have hle := hmax ⟨Tier.REMOTE_FUNCTION, r⟩ (by rw [hfr]; simp)
              (by simp [hr])
            rw [hd] at hle
            simp [tierRank] at hle
      subst hd
      simp [hm', hr]
    · have hm' : lookupField m k = none := by
        cases hm' : lookupField m k with
        | none => rfl
        | some v =>
            have hle := hmax ⟨Tier.MONOLITH, m⟩ (by rw [hfr]; simp)
              (by simp [hm'])
            rw [hd] at hle
            simp [tierRank] at hle
      subst hd
      cases hr : lookupField r k with
      | none => simp [hr] at hdef
      | some v => simp [hm', hr]
    · subst hd
      cases hm' : lookupField m k with
      | none => simp [hm'] at hdef
      | some v => simp [hm']

/-- C1 witness: on a run with all three fragments, the key
`("Query", "shared")` is defined by all three, and the composed schema
keeps exactly the monolith fragment's shape for it. -/
theorem composed_keeps_highest_precedence_witness :
    lookupField
      (composedSchema envAll sampleLocalSchema sampleRemoteSchema
        sampleMonolithSchema) ("Query", "shared") =
      some { fieldType := "ID", resolverTag := "monolithResolver",
             functionDirective := none } := by
  have h := composed_keeps_highest_precedence envAll sampleLocalSchema
    sampleRemoteSchema sampleMonolithSchema ("Query", "shared")
    ⟨Tier.MONOLITH, sampleMonolithSchema⟩ (by decide) (by decide) (by decide)
  rw [h]
  decide

/-- C6: for every set of discovered packages, the flattened sequence of type
definitions built by the remote-function collector starts with the root
query placeholder and the `@function` directive grammar, and everything
after those two base declarations is exactly the per-package declarations,
so every per-package declaration comes strictly after the base ones. -/
theorem base_decls_precede_package_decls (defs : List IoSchemaDef) :
    (collectRemoteTypeDefs defs).flatten.take 2 =
      [queryPlaceholderDecl, functionDirectiveDecl] ∧
    (collectRemoteTypeDefs defs).flatten.drop 2 =
      ((rewriteAllDefs defs).map IoSchemaDef.schemaDef).flatten := by
  simp [collectRemoteTypeDefs, baseDoc]

/-- C5: directive rewriting is pointwise — the rewritten descriptor at any
position depends only on the descriptor at that position (its own document
and its own package name), so packages processed before or after it are
irrelevant, and the rewritten result equals rewriting that descriptor
alone. -/
theorem rewrite_depends_only_on_own_descriptor (defs₁ defs₂ : List IoSchemaDef)
    (i j : Nat) (h : defs₁[i]? = defs₂[j]?) :
    (rewriteAllDefs defs₁)[i]? = (rewriteAllDefs defs₂)[j]? ∧
    ∀ d : IoSchemaDef, defs₁[i]? = some d →
      (rewriteAllDefs defs₁)[i]? =
        some { d with schemaDef :=
          (prependPkgNameToFunctionDirectives d.schemaDef d.pkg) } := by
  constructor
  · simp [rewriteAllDefs, List.getElem?_map, h]
  · intro d hd
    simp [rewriteAllDefs, List.getElem?_map, hd]

/-- C5 witness: the `catalog` descriptor is rewritten identically whether it
is processed alone or after another package, and its rewrite is the
namespace-qualification of its own document. -/
theorem rewrite_depends_only_on_own_descriptor_witness :
    (rewriteAllDefs [sampleInventoryDef, sampleCatalogDef])[1]? =
      some { sampleCatalogDef with schemaDef :=
        (prependPkgNameToFunctionDirectives sampleCatalogDef.schemaDef
          sampleCatalogDef.pkg) } :=
  (rewrite_depends_only_on_own_descriptor
    [sampleInventoryDef, sampleCatalogDef] [sampleCatalogDef] 1 0
    (by decide)).2 sampleCatalogDef (by decide)

/-- C9: `prepareForServer` invokes the schema build exactly twice; the
served schema is the second build's result while the context builder
captures the first, and the two artifacts coincide exactly when the two
build invocations return the same result. -/
theorem prepareForServer_builds_twice (f : Nat → GQLSchema) :
    (prepareForServer f).2 = 2 ∧
    (prepareForServer f).1.schema = f 1 ∧
    (prepareForServer f).1.contextSchema = f 0 ∧
    ((prepareForServer f).1.schema = (prepareForServer f).1.contextSchema ↔
      f 1 = f 0) :=
  ⟨rfl, rfl, rfl, Iff.rfl⟩

/-- C9 witness: under a non-deterministic build supply the two builds are
counted and the two returned schema objects differ. -/
theorem prepareForServer_builds_twice_witness :
    (prepareForServer sampleBuildResults).2 = 2 ∧
    (prepareForServer sampleBuildResults).1.schema ≠
      (prepareForServer sampleBuildResults).1.contextSchema := by
  have h := prepareForServer_builds_twice sampleBuildResults
  exact ⟨h.1, fun he => absurd (h.2.2.2.mp he) (by decide)⟩

/-- C4 counterexample: on a concrete unreachable endpoint, the builder's
thrown error mentions the endpoint URL but does not carry the underlying
cause (here the cause string `ECONNREFUSED ...` is absent from the error,
which is built from the URL alone). -/
theorem introspection_error_drops_cause_counterexample :
    createMonolithProxySchema sampleMonolithURL
      (Except.error "connect ECONNREFUSED 10.0.0.5:443") =
      Except.error (introspectionFailureMessage sampleMonolithURL) ∧
    strMentions (introspectionFailureMessage sampleMonolithURL)
      "ECONNREFUSED" = false ∧
    strMentions (introspectionFailureMessage sampleMonolithURL)
      sampleMonolithURL = true := by
  refine ⟨rfl, ?_, ?_⟩ <;> decide

/-- C4 corrected: if introspection of the monolith endpoint fails, the
proxy builder fails immediately by throwing an error that carries the
endpoint URL and is surfaced to the caller rather than degraded into a
partial result; the underlying cause, however, is discarded — the thrown
error is a function of the URL alone, identical for every cause. -/
theorem introspection_failure_surfaced (url : String) (cause : String) :
    createMonolithProxySchema url (Except.error cause) =
      Except.error (introspectionFailureMessage url) ∧
    (∃ a b : String, introspectionFailureMessage url = a ++ url ++ b) ∧
    ∀ c : String,
      createMonolithProxySchema url (Except.error cause) =
        createMonolithProxySchema url (Except.error c) :=
  ⟨rfl,
    ⟨"Failed introspecting remote Magento schema at \"",
      "\". Make sure that the MONOLITH_GRAPHQL_URL configuration is set to the correct value for your Magento instance",
      rfl⟩,
    fun _ => rfl⟩

/-- C2 counterexample: a monolith schema whose filter-input type exists but
lacks the `sku` field makes the builder raise the missing-field error, and
that error names the missing field but not the minimum compatible legacy
version (the version `2.3.4` appears only in the missing-type message). -/
theorem missing_sku_error_names_no_version_counterexample :
    createMonolithProxySchema sampleMonolithURL (Except.ok schemaMissingSku) =
      Except.error missingSkuMessage ∧
    strMentions missingSkuMessage "ProductAttributeFilterInput.sku" = true ∧
    strMentions missingSkuMessage "2.3.4" = false ∧
    strMentions missingTypeMessage "2.3.4" = true := by
  refine ⟨rfl, ?_, ?_, ?_⟩ <;> decide

/-- C2 corrected: the builder validates the introspected schema before any
fragment is produced — a missing or non-input `ProductAttributeFilterInput`
raises an error naming that type and the minimum compatible legacy version
(2.3.4), a present type lacking `sku` raises an error naming the missing
field (with remediation documentation, but no version), and a success is
only possible when both checks pass, returning the validated schema — never
a silently empty or unvalidated fragment. -/
theorem monolith_validation_before_fragment (url : String)
    (s : IntrospectedSchema) :
    (attrFilterOk s = false →
      createMonolithProxySchema url (Except.ok s) =
        Except.error missingTypeMessage) ∧
    (attrFilterOk s = true → skuOk s = false →
      createMonolithProxySchema url (Except.ok s) =
        Except.error missingSkuMessage) ∧
    (∀ p : IntrospectedSchema × String,
      createMonolithProxySchema url (Except.ok s) = Except.ok p →
        attrFilterOk s = true ∧ skuOk s = true ∧ p = (s, url)) ∧
    strMentions missingTypeMessage "ProductAttributeFilterInput" = true ∧
    strMentions missingTypeMessage "2.3.4" = true ∧
    strMentions missingSkuMessage "ProductAttributeFilterInput.sku" = true := by
  refine ⟨?_, ?_, ?_, by decide, by decide, by decide⟩
  · intro h
    simp only [attrFilterOk] at h
    simp only [createMonolithProxySchema]
    split
    · rfl
    · next t hg =>
        rw [hg] at h
        simp at h
        simp [h]
  · intro h1 h2
    simp only [attrFilterOk] at h1
    simp only [skuOk] at h2
    simp only [createMonolithProxySchema]
    split
    · next hg => rw [hg] at h1; simp at h1
    · next t hg =>
        rw [hg] at h1 h2
        simp at h1 h2
        simp [h1]
        exact fun hmem => h2 _ hmem rfl
  · intro p hp
    simp only [createMonolithProxySchema] at hp
    split at hp
    · exact absurd hp (by simp)
    · next t hg =>
        split at hp
        · split at hp
          · next hin hany =>
              refine ⟨by simp [attrFilterOk, hg, hin], by simp [skuOk, hg, hany], ?_⟩
              injection hp with hpv
              exact hpv.symm
          · exact absurd hp (by simp)
        · exact absurd hp (by simp)

/-- C2 witness: evaluating the validation contract on the concrete schema
that lacks `sku` and on a fully compatible schema. -/
theorem monolith_validation_before_fragment_witness :
    createMonolithProxySchema sampleMonolithURL (Except.ok schemaMissingSku) =
      Except.error missingSkuMessage ∧
    (attrFilterOk schemaCompat = true ∧ skuOk schemaCompat = true ∧
      (schemaCompat, sampleMonolithURL) = (schemaCompat, sampleMonolithURL)) :=
  ⟨(monolith_validation_before_fragment sampleMonolithURL
      schemaMissingSku).2.1 (by decide) (by decide),
    (monolith_validation_before_fragment sampleMonolithURL
      schemaCompat).2.2.1 (schemaCompat, sampleMonolithURL) rfl⟩

/-- C3 counterexample: on a concrete run with `ENABLE_IO_FUNCTIONS` set,
the function-directive visitor is applied twice, and its first application
targets the remote-function fragment's own schema before the composition
event — so binding neither happens exactly once nor only after
composition. -/
theorem binding_applied_before_composition_counterexample :
    (mainTrace envIoOnly sampleLocalSchema [] sampleMonolithSchema).countP
      isBindEvent = 2 ∧
    (mainTrace envIoOnly sampleLocalSchema [] sampleMonolithSchema).head? =
      some (Event.bindDirectives (collectRemoteExtensionsSchema [])) ∧
    (mainTrace envIoOnly sampleLocalSchema [] sampleMonolithSchema)[1]? =
      some (Event.compose
        (mainSchemasIo envIoOnly sampleLocalSchema [] sampleMonolithSchema)) := by
  refine ⟨?_, ?_, ?_⟩ <;> decide

/-- C3 corrected: in every run, the visitor is applied to the fully merged
schema exactly at the end, after the single composition event; but when
remote functions are enabled a second, earlier application targets the
remote-function fragment's own schema before that fragment reaches the
composer, so the total number of binding applications is 2 when
`ENABLE_IO_FUNCTIONS` is truthy and 1 otherwise. -/
theorem binding_on_merged_after_composition (env : Env) (l : GQLSchema)
    (defs : List IoSchemaDef) (m : GQLSchema) :
    (mainTrace env l defs m).getLast? =
      some (Event.bindDirectives (mergeSchemas (mainSchemasIo env l defs m))) ∧
    (mainTrace env l defs m).countP isComposeEvent = 1 ∧
    (mainTrace env l defs m).countP isBindEvent =
      (if truthy (readVar env "ENABLE_IO_FUNCTIONS") then 2 else 1) ∧
    (truthy (readVar env "ENABLE_IO_FUNCTIONS") = true →
      (mainTrace env l defs m).head? =
        some (Event.bindDirectives (collectRemoteExtensionsSchema defs))) := by
  cases hio : truthy (readVar env "ENABLE_IO_FUNCTIONS") <;>
    simp [mainTrace, collectRemoteExtensionsEvents, hio, isBindEvent,
      isComposeEvent, List.countP_cons, List.getLast?]

/-- C3 witness: on a concrete enabled run, the first trace event is the
fragment-level binding of the collector's schema. -/
theorem binding_on_merged_after_composition_witness :
    (mainTrace envIoOnly sampleLocalSchema [sampleCatalogDef]
        sampleMonolithSchema).head? =
      some (Event.bindDirectives
        (collectRemoteExtensionsSchema [sampleCatalogDef])) :=
  (binding_on_merged_after_composition envIoOnly sampleLocalSchema
    [sampleCatalogDef] sampleMonolithSchema).2.2.2 (by decide)

theorem declaresField_prependToTypeDef (pkg : String) (td : TypeDef)
    (t f : String) :
    declaresField (prependToTypeDef pkg td) t f = declaresField td t f := by
  cases td with
  | objectType n fs =>
      simp [prependToTypeDef, declaresField, List.any_map, Function.comp_def]
  | directiveDef n a loc => rfl

theorem declFields_filter_nil (td : TypeDef) (t f : String)
    (h : declaresField td t f = false) :
    (declFields td).filter
      (fun e => decide (e.1 = ((t, f) : String × String))) = [] := by
  cases td with
  | objectType n fs =>
      apply List.filter_eq_nil_iff.mpr
      intro e he
      simp only [declFields, List.mem_map] at he
      obtain ⟨fd, hfd, rfl⟩ := he
      simp only [declaresField, Bool.and_eq_false_iff] at h
      simp only [decide_eq_true_eq]
      intro hk
      have hn : n = t := congrArg Prod.fst hk
      have hf : fd.name = f := congrArg Prod.snd hk
      rcases h with h | h
      · simp [hn] at h
      · have := List.any_eq_false.mp h fd hfd
        simp [hf] at this
  | directiveDef n a loc =>
      simp [declFields]

theorem lookup_remote_ignoreMe (defs : List IoSchemaDef)
    (hpkg : ∀ d ∈ defs, ∀ td ∈ d.schemaDef,
      declaresField td "Query" "ignoreMe" = false) :
    lookupField (collectRemoteExtensionsSchema defs) ("Query", "ignoreMe") =
      some { fieldType := "String", resolverTag := defaultResolverTag,
             functionDirective := none } := by
  have hB : ((((rewriteAllDefs defs).map IoSchemaDef.schemaDef).flatten.map
      declFields).flatten).filter
        (fun e => decide (e.1 = (("Query", "ignoreMe") : String × String))) = [] := by
    apply List.filter_eq_nil_iff.mpr
    intro e he hke
    rw [List.mem_flatten] at he
    obtain ⟨entries, hment, hein⟩ := he
    rw [List.mem_map] at hment
    obtain ⟨td, htd, rfl⟩ := hment
    rw [List.mem_flatten] at htd
    obtain ⟨doc, hdoc, htdin⟩ := htd
    rw [List.mem_map] at hdoc
    obtain ⟨d, hd, rfl⟩ := hdoc
    simp only [rewriteAllDefs, List.mem_map] at hd
    obtain ⟨d₀, hd₀, rfl⟩ := hd
    simp only [prependPkgNameToFunctionDirectives, List.mem_map] at htdin
    obtain ⟨td₀, htd₀, rfl⟩ := htdin
    have hnf : declaresField (prependToTypeDef d₀.pkg td₀) "Query" "ignoreMe"
        = false := by
      rw [declaresField_prependToTypeDef]
      exact hpkg d₀ hd₀ td₀ htd₀
    have hmem : e ∈ (declFields (prependToTypeDef d₀.pkg td₀)).filter
        (fun e => decide (e.1 = (("Query", "ignoreMe") : String × String))) :=
      List.mem_filter.mpr ⟨hein, hke⟩
    rw [declFields_filter_nil _ _ _ hnf] at hmem
    exact absurd hmem (List.not_mem_nil e)
  unfold lookupField collectRemoteExtensionsSchema makeExecutableSchema
    collectRemoteTypeDefs
  simp only [List.flatten_cons, List.map_append, List.flatten_append,
    List.filter_append, hB, List.append_nil, baseDoc]
  decide

/-- C10: whenever remote function packages are enabled, the composed
schema's root `Query` type exposes a field `ignoreMe` of type `String`
coming from the collector's placeholder root type: provided no discovered
package itself declares `Query.ignoreMe` and the higher-precedence monolith
fragment does not override it, the composed entry for
`("Query", "ignoreMe")` is exactly the placeholder's `String` field — even
though no local or package document contributed it. -/
theorem ignoreMe_exposed_by_placeholder (env : Env) (l : GQLSchema)
    (defs : List IoSchemaDef) (m : GQLSchema)
    (hio : truthy (readVar env "ENABLE_IO_FUNCTIONS") = true)
    (hpkg : ∀ d ∈ defs, ∀ td ∈ d.schemaDef,
      declaresField td "Query" "ignoreMe" = false)
    (hmono : lookupField m ("Query", "ignoreMe") = none) :
    lookupField (composedSchemaIo env l defs m) ("Query", "ignoreMe") =
      some { fieldType := "String", resolverTag := defaultResolverTag,
             functionDirective := none } := by
  have hrem := lookup_remote_ignoreMe defs hpkg
  cases hmo : truthy (readVar env "LEGACY_GRAPHQL_URL")
  · have hc : composedSchemaIo env l defs m =
        mergeSchemas [l, collectRemoteExtensionsSchema defs] := by
      simp [composedSchemaIo, mainSchemasIo, mainSchemas, mainFragments,
        hio, hmo]
    rw [hc, lookupField_merge_two, hrem]
  · have hc : composedSchemaIo env l defs m =
        mergeSchemas [l, collectRemoteExtensionsSchema defs, m] := by
      simp [composedSchemaIo, mainSchemasIo, mainSchemas, mainFragments,
        hio, hmo]
    rw [hc, lookupField_merge_three, hmono, hrem]

/-- C10 witness: a concrete enabled run with one discovered package, a
local schema and a monolith schema, none of which declares
`Query.ignoreMe`; the composed schema still exposes it. -/
theorem ignoreMe_exposed_by_placeholder_witness :
    lookupField
      (composedSchemaIo envIoOnly sampleLocalSchema [sampleCatalogDef]
        sampleMonolithSchema) ("Query", "ignoreMe") =
      some { fieldType := "String", resolverTag := defaultResolverTag,
             functionDirective := none } :=
  ignoreMe_exposed_by_placeholder envIoOnly sampleLocalSchema
    [sampleCatalogDef] sampleMonolithSchema (by decide) (by decide) (by decide)

end GraphQLServer
